import Mathlib

/-!
Verification of the image-generation MCP server core: provider abstraction,
request validation (model detection, size and quality rules), provider
factory, remote URL construction, and output-path resolution.

The JavaScript sources are shallowly embedded: strings are Lean `String`
(a list of characters), JS string helpers (`includes`, `toLowerCase`,
`split`, `Number`) are modelled as executable functions over character
lists, thrown `Error` values become `Except` errors carrying the error
kind, and the remote call and entropy sources (clock, random
suffix) are explicit parameters.
-/

deriving instance DecidableEq for Except

namespace ImagesMcp

/-! ### JavaScript string primitives, modelled over character lists -/

/-- Model of the JS `String.prototype.toLowerCase` (ASCII identifiers only). -/
def jsToLower (s : String) : String := ⟨s.data.map Char.toLower⟩

/-- Executable substring test over character lists. -/
def isSub : List Char → List Char → Bool
  | pat, [] => pat.isEmpty
  | pat, c :: rest => pat.isPrefixOf (c :: rest) || isSub pat rest

/-- Model of the JS `hay.includes(pat)` substring test. -/
def jsIncludes (hay pat : String) : Bool := isSub pat.data hay.data

/-- Number of occurrences of a pattern inside a character list. -/
def countSub (pat : List Char) : List Char → Nat
  | [] => 0
  | c :: rest => (if pat.isPrefixOf (c :: rest) then 1 else 0) + countSub pat rest

/-- Split a character list on a separator character, JS `split` style:
the result is always nonempty and separators delimit (possibly empty) pieces. -/
def splitOnChar (sep : Char) : List Char → List (List Char)
  | [] => [[]]
  | a :: rest =>
    let r := splitOnChar sep rest
    if a = sep then [] :: r
    else
      match r with
      | [] => [[a]]
      | h :: t => (a :: h) :: t

/-- Model of the JS `s.split(sep)` for a one-character separator. -/
def strSplit (s : String) (sep : Char) : List String :=
  (splitOnChar sep s.data).map (fun l => ⟨l⟩)

/-- Value of a digit run, most significant first. -/
def digitsToNat (l : List Char) : Nat :=
  l.foldl (fun n c => n * 10 + (c.toNat - 48)) 0

/-- Model of the JS `Number(s)` conversion on the inputs reachable here:
the pieces of a `<digits>x<digits>` token. A nonempty all-digit string
parses to its value; anything else is treated as NaN (`none`). The JS
corner `Number("") = 0` lands in the same falsy error branch as NaN in
every consumer below, so the collapse to `none` is observation-equal. -/
def jsNumber (s : String) : Option Nat :=
  if s.data ≠ [] ∧ s.data.all Char.isDigit then some (digitsToNat s.data) else none

/-- JS truthiness of a string-or-undefined value: `undefined` and the
empty string are falsy. -/
def truthy : Option String → Bool
  | none => false
  | some s => s != ""

/-- Model of the JS `v || dflt` fallback on a string-or-undefined value. -/
def jsOr (v : Option String) (dflt : String) : String :=
  match v with
  | none => dflt
  | some s => if s = "" then dflt else s

/-- Model of the JS `array.join(sep)`. -/
def jsJoin (sep : String) : List String → String
  | [] => ""
  | [x] => x
  | x :: y :: xs => x ++ sep ++ jsJoin sep (y :: xs)

/-! ### ModelDetector -/

/-- Embeds `Config.getModelType` (src/src/config.js lines 40-49) and the
identical `AzureOpenAIProvider.getModelType` (src/src/index.js lines
362-371): case-insensitive substring sniffing on the deployment name,
defaulting to flux. -/
def getModelType (deployment : String) : String :=
  let deploymentLower := jsToLower deployment
  if jsIncludes deploymentLower "flux" = true then "flux"
  else if jsIncludes deploymentLower "gpt-image" = true then "gpt-image-1"
  else "flux"

/-! ### QualityValidator -/

inductive QualityError where
  | fluxQuality
  | gptImageQuality
  deriving DecidableEq, Repr

def QualityError.message : QualityError → String
  | .fluxQuality => "Flux quality must be \"standard\" or \"hd\""
  | .gptImageQuality => "gpt-image-1 quality must be \"low\", \"medium\", or \"high\""

/-- Embeds `validateQuality` (src/src/imageGenerator.js lines 40-51 and
src/src/index.js lines 289-300): legal quality sets per model type, any
other model type unvalidated. -/
def validateQuality (quality modelType : String) : Except QualityError String :=
  if modelType = "flux" then
    if quality = "standard" ∨ quality = "hd" then .ok quality
    else .error .fluxQuality
  else if modelType = "gpt-image-1" then
    if quality = "low" ∨ quality = "medium" ∨ quality = "high" then .ok quality
    else .error .gptImageQuality
  else .ok quality

/-! ### SizeResolver -/

inductive SizeError where
  | invalidFormat
  | wxhFormat
  | outOfBounds
  | notAligned
  deriving DecidableEq, Repr

def SizeError.message : SizeError → String
  | .invalidFormat =>
      "Size must be a shorthand (small, medium, large, square, portrait, landscape) or WxH format (e.g., 1024x1024)"
  | .wxhFormat => "Size must be in WxH format (e.g., 1024x1024)"
  | .outOfBounds => "Flux size must be between 256x256 and 1440x1440"
  | .notAligned => "Flux size dimensions must be multiples of 32"

/-- Embeds `validateFluxSize` (src/src/imageGenerator.js lines 19-35 and
src/src/index.js lines 268-284): split on the x, convert with Number,
reject falsy width or height, then bounds, then 32-alignment. -/
def validateFluxSize (size : String) : Except SizeError String :=
  let parts := (strSplit size 'x').map jsNumber
  match parts.getD 0 none, parts.getD 1 none with
  | some w, some h =>
    if w = 0 ∨ h = 0 then .error .wxhFormat
    else if w < 256 ∨ h < 256 ∨ 1440 < w ∨ 1440 < h then .error .outOfBounds
    else if ¬ w % 32 = 0 ∨ ¬ h % 32 = 0 then .error .notAligned
    else .ok size
  | _, _ => .error .wxhFormat

/-- The shorthand expansion table of `toPixels` (case-sensitive keys). -/
def sizeMap (size : String) : Option String :=
  if size = "small" then some "512x512"
  else if size = "medium" then some "1024x1024"
  else if size = "large" then some "1440x1440"
  else if size = "square" then some "1024x1024"
  else if size = "portrait" then some "1024x1440"
  else if size = "landscape" then some "1440x1024"
  else none

/-- The regex test `/^\d+x\d+$/`: exactly one x with a nonempty digit run
on each side. -/
def matchesWxH (size : String) : Bool :=
  match strSplit size 'x' with
  | [a, b] => !a.data.isEmpty && a.data.all Char.isDigit
      && !b.data.isEmpty && b.data.all Char.isDigit
  | _ => false

/-- Embeds `toPixels` (src/src/imageGenerator.js lines 59-85 and
src/src/index.js lines 305-328): shorthand expansion, format check, and
the flux-only bound check. `expanded` is the reassigned `size` variable. -/
def toPixels (size modelType : String) : Except SizeError String :=
  let expanded := (sizeMap size).getD size
  if matchesWxH expanded = false then .error .invalidFormat
  else if modelType = "flux" then validateFluxSize expanded
  else .ok expanded

/-! ### Azure remote URL -/

/-- Embeds `AzureOpenAIProvider.getApiUrl` (src/src/index.js lines 373-375)
and the equivalent `Config.getApiUrl` (src/src/config.js lines 85-89). -/
def getApiUrl (endpoint deployment apiVersion : String) : String :=
  endpoint ++ "/openai/deployments/" ++ deployment
    ++ "/images/generations?api-version=" ++ apiVersion

/-! ### Filesystem paths

The Node `path` module is an external collaborator; `joinPath` and
`basename` model its POSIX behaviour on the inputs used here: joining
with a slash while normalizing empty, dot and dotdot segments, and
taking the last slash-delimited segment. -/

def splitSeg (s : String) : List String :=
  (splitOnChar '/' s.data).map (fun l => ⟨l⟩)

/-- One normalization step of `path.join`: drop empty and dot segments,
resolve a dotdot against the segment stack (kept in reverse order). -/
def pathStep (isAbs : Bool) (acc : List String) (seg : String) : List String :=
  if seg = "" ∨ seg = "." then acc
  else if seg = ".." then
    match acc with
    | [] => if isAbs then [] else [".."]
    | top :: rest => if top = ".." then ".." :: top :: rest else rest
  else seg :: acc

/-- Model of Node `path.join(a, b)` for POSIX paths. -/
def joinPath (a b : String) : String :=
  let isAbs := a.data.head? = some '/'
  let stack := (splitSeg a ++ splitSeg b).foldl (pathStep isAbs) []
  let body := jsJoin "/" stack.reverse
  if isAbs then "/" ++ body else if body = "" then "." else body

/-- The segment after the last slash. -/
def afterLastSlash (l : List Char) : List Char :=
  l.foldl (fun acc c => if c = '/' then [] else acc ++ [c]) []

/-- Model of Node `path.basename` for paths that do not end in a slash. -/
def basename (p : String) : String := ⟨afterLastSlash p.data⟩

/-! ### Configuration and provider factory -/

/-- The raw environment variables read by the `Config` constructor
(src/src/config.js lines 18-34); `none` is an unset variable. -/
structure EnvConfig where
  imageProvider : Option String
  geminiApiKey : Option String
  azureEndpoint : Option String
  azureDeployment : Option String
  azureApiVersion : Option String
  azureApiKey : Option String
  outputDir : Option String

/-- The `Config` fields after the constructor applied its defaults. -/
structure Config where
  provider : String
  geminiApiKey : Option String
  endpoint : Option String
  deployment : String
  apiVersion : String
  apiKey : Option String
  outputDir : String
  deriving DecidableEq, Repr

/-- Embeds the `Config` constructor defaults (src/src/config.js lines
18-34), with the process current working directory passed explicitly. -/
def mkConfig (env : EnvConfig) (cwd : String) : Config :=
  { provider := jsOr env.imageProvider "google"
    geminiApiKey := env.geminiApiKey
    endpoint := env.azureEndpoint
    deployment := jsOr env.azureDeployment "flux-1-1-pro"
    apiVersion := jsOr env.azureApiVersion "2025-04-01-preview"
    apiKey := env.azureApiKey
    outputDir := jsOr env.outputDir (joinPath cwd "generated-images") }

/-- Embeds `Config.validate` (src/src/config.js lines 55-79): aggregate
the missing-field errors for the selected provider into one message. -/
def configValidate (cfg : Config) : Except String Unit :=
  let errors :=
    if cfg.provider = "google" then
      if truthy cfg.geminiApiKey = true then []
      else ["GEMINI_API_KEY is required when using Google provider"]
    else if cfg.provider = "azure" then
      (if truthy cfg.endpoint = true then []
       else ["AZURE_OPENAI_ENDPOINT is required when using Azure provider"]) ++
      (if truthy cfg.apiKey = true then []
       else ["AZURE_OPENAI_API_KEY is required when using Azure provider"])
    else ["Unknown IMAGE_PROVIDER: " ++ cfg.provider ++ ". Supported values: google, azure"]
  if 0 < errors.length then
    .error ("Configuration validation failed:\n"
      ++ jsJoin "\n" (errors.map (fun e => "  - " ++ e)))
  else .ok ()

inductive ProviderError where
  | missingGeminiKey
  | azureConfigIncomplete
  | unknownProvider (providerType : String)
  deriving DecidableEq, Repr

def ProviderError.message : ProviderError → String
  | .missingGeminiKey => "Missing GEMINI_API_KEY. Please set it in your environment or config."
  | .azureConfigIncomplete => "Azure OpenAI configuration is incomplete"
  | .unknownProvider p => "Unknown provider: " ++ p ++ ". Supported: google, azure"

/-- Instance state of `GoogleNanaBananaProvider` after construction. -/
structure GoogleProviderState where
  apiKey : String
  outputDir : String
  deriving DecidableEq, Repr

/-- Instance state of `AzureOpenAIProvider` after construction. -/
structure AzureProviderState where
  endpoint : String
  apiKey : String
  deployment : String
  apiVersion : String
  outputDir : String
  modelType : String
  deriving DecidableEq, Repr

inductive Provider where
  | google (st : GoogleProviderState)
  | azure (st : AzureProviderState)
  deriving DecidableEq, Repr

def Provider.getName : Provider → String
  | .google _ => "google-nano-banana"
  | .azure _ => "azure-openai"

/-- Embeds the `GoogleNanaBananaProvider` constructor
(src/src/providers/GoogleNanaBananaProvider.js lines 13-22): fail fast
on a falsy API key, default the output directory. -/
def mkGoogleProvider (apiKey outputDir : Option String) (cwd : String) :
    Except ProviderError Provider :=
  if truthy apiKey = false then .error .missingGeminiKey
  else .ok (.google
    { apiKey := jsOr apiKey ""
      outputDir := jsOr outputDir (joinPath cwd "generated-images") })

/-- Embeds the `AzureOpenAIProvider` constructor (src/src/index.js lines
334-349): one combined falsy check over the four required fields, one
fixed error, then model detection on the deployment name. -/
def mkAzureProvider (endpoint apiKey deployment apiVersion outputDir : Option String)
    (cwd : String) : Except ProviderError Provider :=
  if truthy endpoint = false ∨ truthy apiKey = false
      ∨ truthy deployment = false ∨ truthy apiVersion = false then
    .error .azureConfigIncomplete
  else
    .ok (.azure
      { endpoint := jsOr endpoint ""
        apiKey := jsOr apiKey ""
        deployment := jsOr deployment ""
        apiVersion := jsOr apiVersion ""
        outputDir := jsOr outputDir (joinPath cwd "generated-images")
        modelType := getModelType (jsOr deployment "") })

/-- Embeds `createImageProvider` (src/src/config.js lines 107-128):
select the variant by the provider discriminator, defaulting to google,
and fail on anything else. -/
def createImageProvider (cfg : Config) (cwd : String) : Except ProviderError Provider :=
  let providerType := if cfg.provider = "" then "google" else cfg.provider
  if providerType = "google" then
    mkGoogleProvider cfg.geminiApiKey (some cfg.outputDir) cwd
  else if providerType = "azure" then
    mkAzureProvider cfg.endpoint cfg.apiKey (some cfg.deployment) (some cfg.apiVersion)
      (some cfg.outputDir) cwd
  else .error (.unknownProvider providerType)

/-! ### Output-path resolution -/

/-- Embeds the generated-filename timestamp of the provider save helpers:
`new Date().toISOString().replace(/[:.]/g, "-").split("T")[0]`, i.e. the
date-only part of the ISO clock reading, which is passed in explicitly. -/
def isoDateOnly (isoNow : String) : String :=
  ⟨(splitOnChar 'T' (isoNow.data.map
      (fun c => if c = ':' ∨ c = '.' then '-' else c))).headD []⟩

/-- Embeds `AzureOpenAIProvider.saveBase64Image` (src/src/index.js lines
456-478) minus the filesystem write: the directory choice and filename
generation. The clock reading and the random suffix are parameters. -/
def azureSavePath (st : AzureProviderState) (format : String)
    (customFilename workingDirectory : Option String)
    (isoNow randomStr : String) : String :=
  let outputDir :=
    if truthy workingDirectory = true then
      joinPath (jsOr workingDirectory "") "generated-images"
    else st.outputDir
  let timestamp := isoDateOnly isoNow
  let filename :=
    if truthy customFilename = true then jsOr customFilename "" ++ "." ++ format
    else "azure-" ++ st.modelType ++ "-" ++ timestamp ++ "-" ++ randomStr ++ "." ++ format
  joinPath outputDir filename

/-- Embeds `GoogleNanaBananaProvider.saveBase64Image`
(src/src/providers/GoogleNanaBananaProvider.js lines 115-137) minus the
filesystem write. -/
def googleSavePath (st : GoogleProviderState) (format : String)
    (customFilename workingDirectory : Option String)
    (isoNow randomStr : String) : String :=
  let outputDir :=
    if truthy workingDirectory = true then
      joinPath (jsOr workingDirectory "") "generated-images"
    else st.outputDir
  let timestamp := isoDateOnly isoNow
  let filename :=
    if truthy customFilename = true then jsOr customFilename "" ++ "." ++ format
    else "google-nanaban-" ++ timestamp ++ "-" ++ randomStr ++ "." ++ format
  joinPath outputDir filename

/-- Embeds `ImageGenerator.saveBase64Image` (src/src/imageGenerator.js
lines 267-284): fixed output directory, full (not date-only) sanitized
timestamp, no random suffix. -/
def generatorSavePath (outputDir format : String) (customFilename : Option String)
    (isoNow : String) : String :=
  let timestamp : String :=
    ⟨isoNow.data.map (fun c => if c = ':' ∨ c = '.' then '-' else c)⟩
  let filename :=
    if truthy customFilename = true then jsOr customFilename "" ++ "." ++ format
    else "image-" ++ timestamp ++ "." ++ format
  joinPath outputDir filename

/-! ### Image generation pipelines

The remote HTTP collaborator is an explicit argument; the second
component of each result records whether it was consulted, so that
fail-before-remote-call properties are statable. -/

/-- The option bag of `generateImage`; `none` is an absent field. -/
structure GenOptions where
  quality : Option String
  size : Option String
  outputFormat : Option String
  outputCompression : Option Nat
  filename : Option String
  workingDirectory : Option String

/-- The option bag with every field absent. -/
def GenOptions.none' : GenOptions := ⟨none, none, none, none, none, none⟩

inductive GenError where
  | promptRequired
  | promptTooShort
  | descriptionRequired
  | descriptionTooShort
  | invalidQuality (e : QualityError)
  | invalidSize (e : SizeError)
  | configInvalid (msg : String)
  | noImageData
  | remoteFailed (msg : String)
  | googleWrapped (msg : String)
  deriving DecidableEq, Repr

/-- Result shape of `AzureOpenAIProvider.generateImage`. -/
structure AzureGenResult where
  path : String
  url : String
  base64 : String
  prompt : String
  size : String
  quality : String
  provider : String
  modelType : String
  deriving DecidableEq, Repr

/-- Embeds `AzureOpenAIProvider.generateImage` (src/src/index.js lines
377-454). The remote call returns an upstream error message or the
optional `data.data[0].b64_json` payload. -/
def azureGenerateImage (st : AzureProviderState) (prompt : String)
    (options : GenOptions) (remote : Except String (Option String))
    (isoNow randomStr : String) : Except GenError AzureGenResult × Bool :=
  let quality := options.quality.getD "standard"
  let size := options.size.getD "medium"
  let outputFormat := options.outputFormat.getD "png"
  if prompt = "" then (.error .promptRequired, false)
  else if prompt.length < 10 then (.error .promptTooShort, false)
  else
    match validateQuality quality st.modelType with
    | .error e => (.error (.invalidQuality e), false)
    | .ok _ =>
      match toPixels size st.modelType with
      | .error e => (.error (.invalidSize e), false)
      | .ok pixelSize =>
        match remote with
        | .error msg => (.error (.remoteFailed msg), true)
        | .ok none => (.error .noImageData, true)
        | .ok (some b64) =>
          let filePath :=
            azureSavePath st outputFormat options.filename options.workingDirectory
              isoNow randomStr
          (.ok { path := filePath
                 url := "file://" ++ filePath
                 base64 := b64
                 prompt := prompt
                 size := pixelSize
                 quality := quality
                 provider := "azure-openai"
                 modelType := st.modelType }, true)

/-- Result shape of `GoogleNanaBananaProvider.generateImage`. -/
structure GoogleGenResult where
  base64 : String
  mimeType : String
  path : String
  url : String
  prompt : String
  size : String
  quality : String
  provider : String
  deriving DecidableEq, Repr

/-- One element of the `result.images` array of the first Google
implementation. -/
structure GeminiImage where
  image : Option String
  mimeType : Option String
  deriving DecidableEq, Repr

/-- Embeds the first `GoogleNanaBananaProvider.generateImage`
(src/src/providers/GoogleNanaBananaProvider.js lines 40-105): prompt
checks before the remote call, then one expected image; every failure
inside the try block is wrapped with the provider name. An undefined
`result.images` is folded into the empty list. -/
def googleGenerateImage (st : GoogleProviderState) (prompt : String)
    (options : GenOptions) (remote : Except String (List GeminiImage))
    (isoNow randomStr : String) : Except GenError GoogleGenResult × Bool :=
  if prompt = "" then (.error .promptRequired, false)
  else if prompt.length < 10 then (.error .promptTooShort, false)
  else
    match remote with
    | .error msg =>
      (.error (.googleWrapped ("Google Nano Banana image generation failed: " ++ msg)), true)
    | .ok images =>
      match images.head? with
      | none =>
        (.error (.googleWrapped
          "Google Nano Banana image generation failed: Gemini did not return any images"), true)
      | some image =>
        let mimeType := image.mimeType.getD "image/png"
        match image.image with
        | none =>
          (.error (.googleWrapped
            "Google Nano Banana image generation failed: Gemini did not return image data"), true)
        | some imageData =>
          let filePath :=
            googleSavePath st (jsOr ((strSplit mimeType '/').get? 1) "png")
              options.filename options.workingDirectory isoNow randomStr
          (.ok { base64 := imageData
                 mimeType := mimeType
                 path := filePath
                 url := "file://" ++ filePath
                 prompt := prompt
                 size := "auto"
                 quality := "standard"
                 provider := "google-nano-banana" }, true)

/-- The `inlineData` payload of a Gemini response part. -/
structure GeminiInline where
  data : String
  mimeType : Option String
  deriving DecidableEq, Repr

structure GeminiPart where
  inlineData : Option GeminiInline
  deriving DecidableEq, Repr

structure GeminiCandidate where
  parts : List GeminiPart
  deriving DecidableEq, Repr

/-- Embeds the second `GoogleNanaBananaProvider.generateImage`
(src/src/providers/GoogleNanaBananaProvider.js lines 179-238): no prompt
validation at all; the remote model is consulted unconditionally and the
first `inlineData` across candidates is extracted. -/
def googleGenerateImageSecond (st : GoogleProviderState) (prompt : String)
    (options : GenOptions) (remote : Except String (List GeminiCandidate))
    (isoNow randomStr : String) : Except GenError GoogleGenResult × Bool :=
  match remote with
  | .error msg =>
    (.error (.googleWrapped ("Google Nano Banana image generation failed: " ++ msg)), true)
  | .ok candidates =>
    match candidates.findSome? (fun c => c.parts.findSome? (fun p => p.inlineData)) with
    | none =>
      (.error (.googleWrapped
        "Google Nano Banana image generation failed: Gemini did not return an image"), true)
    | some inl =>
      let mimeType := jsOr inl.mimeType "image/png"
      let filePath :=
        googleSavePath st (jsOr ((strSplit mimeType '/').get? 1) "png")
          options.filename options.workingDirectory isoNow randomStr
      (.ok { base64 := inl.data
             mimeType := mimeType
             path := filePath
             url := "file://" ++ filePath
             prompt := prompt
             size := "auto"
             quality := "standard"
             provider := "google-nano-banana" }, true)

/-- Result shape of `ImageGenerator.generateImage`. -/
structure GeneratorGenResult where
  path : String
  url : String
  prompt : String
  size : String
  quality : String
  modelType : String
  deriving DecidableEq, Repr

/-- Embeds `ImageGenerator.generateImage` (src/src/imageGenerator.js
lines 100-178): prompt checks, then configuration validation, model
detection, quality and size validation, and only then the remote call. -/
def imageGeneratorGenerate (cfg : Config) (prompt : String) (options : GenOptions)
    (remote : Except String (Option String)) (isoNow : String) :
    Except GenError GeneratorGenResult × Bool :=
  let quality := options.quality.getD "standard"
  let size := options.size.getD "medium"
  let outputFormat := options.outputFormat.getD "png"
  if prompt = "" then (.error .promptRequired, false)
  else if prompt.length < 10 then (.error .promptTooShort, false)
  else
    match configValidate cfg with
    | .error msg => (.error (.configInvalid msg), false)
    | .ok _ =>
      let modelType := getModelType cfg.deployment
      match validateQuality quality modelType with
      | .error e => (.error (.invalidQuality e), false)
      | .ok _ =>
        match toPixels size modelType with
        | .error e => (.error (.invalidSize e), false)
        | .ok pixelSize =>
          match remote with
          | .error msg => (.error (.remoteFailed msg), true)
          | .ok none => (.error .noImageData, true)
          | .ok (some _) =>
            let filePath := generatorSavePath cfg.outputDir outputFormat options.filename isoNow
            (.ok { path := filePath
                   url := "file://" ++ filePath
                   prompt := prompt
                   size := pixelSize
                   quality := quality
                   modelType := modelType }, true)

def styleDescription (style : String) : Option String :=
  if style = "modern" then some "sleek, contemporary design with clean lines and vibrant colors"
  else if style = "minimal" then some "minimalist design with lots of white space and subtle colors"
  else if style = "professional" then some "professional corporate design with business-appropriate colors"
  else if style = "playful" then some "playful and colorful design with fun elements and bright colors"
  else if style = "dark" then some "dark mode interface with dark background and accent colors"
  else if style = "glassmorphism" then some "glassmorphism design with frosted glass effects and transparency"
  else none

def typeDescription (uiType : String) : Option String :=
  if uiType = "mobile app" then some "mobile application interface with typical mobile UI patterns"
  else if uiType = "web app" then some "web application interface with desktop layout"
  else if uiType = "dashboard" then some "analytics dashboard with charts, graphs, and data visualizations"
  else if uiType = "landing page" then some "marketing landing page with hero section and call-to-action"
  else if uiType = "e-commerce" then some "e-commerce product page or shopping interface"
  else if uiType = "social media" then some "social media feed or profile interface"
  else none

/-- Embeds `ImageGenerator.buildUIPrompt` (src/src/imageGenerator.js
lines 219-257). -/
def buildUIPrompt (description style uiType : String) : String :=
  let p1 := "A high-quality UI design screenshot of a " ++ uiType ++ ". " ++ description ++ ". "
  let p2 :=
    match styleDescription style with
    | some sd => p1 ++ "The design features a " ++ sd ++ ". "
    | none => p1
  let p3 :=
    match typeDescription uiType with
    | some td => p2 ++ "This is a " ++ td ++ ". "
    | none => p2
  p3 ++ "The interface should be pixel-perfect with proper spacing, typography, and visual hierarchy. "
    ++ "Include realistic UI elements like buttons, input fields, navigation, icons, and content. "
    ++ "Professional UI/UX design quality with attention to detail. "
    ++ "Sharp, crisp rendering suitable for presentation or mockup. "
    ++ "NO code, NO Lorem Ipsum placeholder text, use realistic content. "
    ++ "NO watermarks or labels."

/-- Embeds `ImageGenerator.generateUIImage` (src/src/imageGenerator.js
lines 190-209): the description checks, then delegation to
`generateImage` with the UI prompt and fixed options. -/
def generateUIImage (cfg : Config) (description : String)
    (style uiType sizeOpt : Option String)
    (remote : Except String (Option String)) (isoNow : String) :
    Except GenError GeneratorGenResult × Bool :=
  let style := style.getD "modern"
  let uiType := uiType.getD "web app"
  let size := sizeOpt.getD "portrait"
  if description = "" then (.error .descriptionRequired, false)
  else if description.length < 20 then (.error .descriptionTooShort, false)
  else
    imageGeneratorGenerate cfg (buildUIPrompt description style uiType)
      { quality := some "standard"
        size := some size
        outputFormat := some "png"
        outputCompression := some 100
        filename := none
        workingDirectory := none }
      remote isoNow

/-! ### Supporting lemmas -/

/-- A shorthand key never matches the WxH regex, so a WxH token is never
expanded by the shorthand table. -/
theorem sizeMap_eq_none_of_matchesWxH {s : String} (h : matchesWxH s = true) :
    sizeMap s = none := by
  unfold sizeMap
  split_ifs with h1 h2 h3 h4 h5 h6 <;> subst_vars <;>
    first
    | rfl
    | exact absurd h (by decide)

/-- A shorthand expansion that passes the format check and the flux
validation resolves to its pixel pair for every model type. -/
theorem toPixels_shorthand (s p m : String) (hs : sizeMap s = some p)
    (hp : matchesWxH p = true) (hv : validateFluxSize p = .ok p) :
    toPixels s m = .ok p := by
  by_cases hm : m = "flux" <;> simp [toPixels, hs, hp, hm, hv]

/-! ### Claim theorems -/

/-- C5: model detection is total from identifier text onto
flux / gpt-image-1: flux whenever the lowercased identifier contains
"flux", else gpt-image-1 whenever it contains "gpt-image", else the flux
default; with the three documented examples. -/
theorem model_detection_total :
    (∀ d : String, getModelType d = "flux" ∨ getModelType d = "gpt-image-1")
    ∧ (∀ d : String, jsIncludes (jsToLower d) "flux" = true → getModelType d = "flux")
    ∧ (∀ d : String, jsIncludes (jsToLower d) "flux" = false →
        jsIncludes (jsToLower d) "gpt-image" = true → getModelType d = "gpt-image-1")
    ∧ (∀ d : String, jsIncludes (jsToLower d) "flux" = false →
        jsIncludes (jsToLower d) "gpt-image" = false → getModelType d = "flux")
    ∧ getModelType "FLUX-schnell" = "flux"
    ∧ getModelType "gpt-image-1-mini" = "gpt-image-1"
    ∧ getModelType "unknown-model" = "flux" := by
  refine ⟨?_, ?_, ?_, ?_, by decide, by decide, by decide⟩
  · intro d
    by_cases h1 : jsIncludes (jsToLower d) "flux" = true
    · exact Or.inl (by simp [getModelType, h1])
    · by_cases h2 : jsIncludes (jsToLower d) "gpt-image" = true
      · exact Or.inr (by simp [getModelType, h1, h2])
      · exact Or.inl (by simp [getModelType, h1, h2])
  · intro d h1
    simp [getModelType, h1]
  · intro d h1 h2
    simp [getModelType, h1, h2]
  · intro d h1 h2
    simp [getModelType, h1, h2]

/-- Witness for C5 at concrete identifiers, discharging the substring
hypotheses by evaluation. -/
theorem model_detection_total_witness :
    getModelType "abcFLUXz" = "flux" ∧ getModelType "my-GPT-Image-x" = "gpt-image-1" :=
  ⟨model_detection_total.2.1 "abcFLUXz" (by decide),
   model_detection_total.2.2.1 "my-GPT-Image-x" (by decide) (by decide)⟩

/-- C7: quality validation fails exactly for flux outside standard/hd and
for gpt-image-1 outside low/medium/high; every other model type passes
every quality string unvalidated. -/
theorem quality_validation_iff :
    ∀ quality modelType : String,
      (((validateQuality quality modelType).isOk = false) ↔
        ((modelType = "flux" ∧ quality ≠ "standard" ∧ quality ≠ "hd") ∨
         (modelType = "gpt-image-1" ∧ quality ≠ "low" ∧ quality ≠ "medium" ∧ quality ≠ "high")))
      ∧ (modelType ≠ "flux" → modelType ≠ "gpt-image-1" →
          validateQuality quality modelType = .ok quality) := by
  intro quality modelType
  constructor
  · unfold validateQuality
    split_ifs with h1 h2 h3 h4 <;> simp_all [Except.isOk] <;> tauto
  · intro h1 h2
    simp [validateQuality, h1, h2]

/-- Witness for C7 at a model type outside the validated pair. -/
theorem quality_validation_iff_witness :
    validateQuality "ultra" "dalle-3" = .ok "ultra" :=
  (quality_validation_iff "ultra" "dalle-3").2 (by decide) (by decide)

/-- C3 counterexample: the WxH token 0x512 has width 0, which violates the
lower bound 256 and is 32-aligned, yet resolving it under flux fails with
the WxH-format error (the falsy-width check fires first), not with the
out-of-bounds error the claim requires for a bound violation. -/
theorem flux_size_counterexample :
    matchesWxH "0x512" = true
    ∧ (0 : Nat) < 256
    ∧ (0 : Nat) % 32 = 0
    ∧ toPixels "0x512" "flux" = .error SizeError.wxhFormat
    ∧ toPixels "0x512" "flux" ≠ .error SizeError.outOfBounds := by
  decide

/-- C3 amended: for a WxH token parsed as (w, h), flux resolution fails
with the WxH-format error when w or h is zero, with the out-of-bounds
error when both are positive and a bound is violated, with the alignment
error when in bounds but not 32-aligned, and succeeds unchanged when in
bounds and aligned; non-flux model types return every WxH token
unchanged with no bound or alignment check. -/
theorem flux_size_resolution_amended :
    (∀ (s : String) (w h : Nat), matchesWxH s = true →
      (strSplit s 'x').map jsNumber = [some w, some h] →
      ((w = 0 ∨ h = 0) → toPixels s "flux" = .error SizeError.wxhFormat)
      ∧ (1 ≤ w → 1 ≤ h → (w < 256 ∨ h < 256 ∨ 1440 < w ∨ 1440 < h) →
          toPixels s "flux" = .error SizeError.outOfBounds)
      ∧ (256 ≤ w → w ≤ 1440 → 256 ≤ h → h ≤ 1440 → ¬ (w % 32 = 0 ∧ h % 32 = 0) →
          toPixels s "flux" = .error SizeError.notAligned)
      ∧ (256 ≤ w → w ≤ 1440 → 256 ≤ h → h ≤ 1440 → w % 32 = 0 → h % 32 = 0 →
          toPixels s "flux" = .ok s))
    ∧ (∀ (s modelType : String), matchesWxH s = true → modelType ≠ "flux" →
        toPixels s modelType = .ok s) := by
  constructor
  · intro s w h hm hparts
    have hsm := sizeMap_eq_none_of_matchesWxH hm
    have key : toPixels s "flux"
        = (if w = 0 ∨ h = 0 then .error SizeError.wxhFormat
           else if w < 256 ∨ h < 256 ∨ 1440 < w ∨ 1440 < h then .error SizeError.outOfBounds
           else if ¬ w % 32 = 0 ∨ ¬ h % 32 = 0 then .error SizeError.notAligned
           else .ok s) := by
      simp [toPixels, hsm, hm, validateFluxSize, hparts]
    refine ⟨?_, ?_, ?_, ?_⟩
    · intro h0
      rw [key, if_pos h0]
    · intro hw hh hb
      rw [key, if_neg (by omega), if_pos hb]
    · intro hw1 hw2 hh1 hh2 ha
      rw [key, if_neg (by omega), if_neg (by omega), if_pos (by tauto)]
    · intro hw1 hw2 hh1 hh2 hwa hha
      rw [key, if_neg (by omega), if_neg (by omega), if_neg (by simp [hwa, hha])]
  · intro s modelType hm hflux
    have hsm := sizeMap_eq_none_of_matchesWxH hm
    simp [toPixels, hsm, hm, hflux]

/-- Witness for the amended C3 at concrete tokens in each outcome class. -/
theorem flux_size_resolution_amended_witness :
    toPixels "512x512" "flux" = .ok "512x512"
    ∧ toPixels "2000x512" "flux" = .error SizeError.outOfBounds
    ∧ toPixels "9x9" "gpt-image-1" = .ok "9x9" := by
  refine ⟨?_, ?_, ?_⟩
  · exact (flux_size_resolution_amended.1 "512x512" 512 512 (by decide) (by decide)).2.2.2
      (by decide) (by decide) (by decide) (by decide) (by decide) (by decide)
  · exact (flux_size_resolution_amended.1 "2000x512" 2000 512 (by decide) (by decide)).2.1
      (by decide) (by decide) (by decide)
  · exact flux_size_resolution_amended.2 "9x9" "gpt-image-1" (by decide) (by decide)

/-- C8: the six case-sensitive shorthand tokens expand to their fixed
pixel pairs for every model type; every token that is neither a
shorthand key nor of WxH shape fails with the invalid-format error, and
in particular the capitalized token Small is not expanded. -/
theorem shorthand_expansion :
    (∀ modelType : String,
      toPixels "small" modelType = .ok "512x512"
      ∧ toPixels "medium" modelType = .ok "1024x1024"
      ∧ toPixels "large" modelType = .ok "1440x1440"
      ∧ toPixels "square" modelType = .ok "1024x1024"
      ∧ toPixels "portrait" modelType = .ok "1024x1440"
      ∧ toPixels "landscape" modelType = .ok "1440x1024")
    ∧ (∀ (s modelType : String), sizeMap s = none → matchesWxH s = false →
        toPixels s modelType = .error SizeError.invalidFormat)
    ∧ sizeMap "Small" = none
    ∧ toPixels "Small" "flux" = .error SizeError.invalidFormat := by
  refine ⟨?_, ?_, by decide, by decide⟩
  · intro m
    exact ⟨toPixels_shorthand _ _ m (by decide) (by decide) (by decide),
      toPixels_shorthand _ _ m (by decide) (by decide) (by decide),
      toPixels_shorthand _ _ m (by decide) (by decide) (by decide),
      toPixels_shorthand _ _ m (by decide) (by decide) (by decide),
      toPixels_shorthand _ _ m (by decide) (by decide) (by decide),
      toPixels_shorthand _ _ m (by decide) (by decide) (by decide)⟩
  · intro s m h1 h2
    simp [toPixels, h1, h2]

/-- Witness for C8 at a token that is neither shorthand nor WxH. -/
theorem shorthand_expansion_witness :
    toPixels "banana" "flux" = .error SizeError.invalidFormat :=
  shorthand_expansion.2.1 "banana" "flux" (by decide) (by decide)

theorem isPrefixOf_self_append (l t : List Char) : l.isPrefixOf (l ++ t) = true := by
  induction l with
  | nil => simp [List.isPrefixOf]
  | cons a as ih => simp [List.isPrefixOf, ih]

theorem isSub_of_isPrefixOf (pat l : List Char) (h : pat.isPrefixOf l = true) :
    isSub pat l = true := by
  cases l with
  | nil =>
    cases pat with
    | nil => rfl
    | cons a as => simp [List.isPrefixOf] at h
  | cons c rest => simp [isSub, h]

theorem isSub_append_left (pat pre l : List Char) (h : isSub pat l = true) :
    isSub pat (pre ++ l) = true := by
  induction pre with
  | nil => simpa
  | cons a as ih => simp [isSub, ih]

/-- C1 counterexample: with a trailing slash on the endpoint the resolved
URL keeps both slashes, so it contains the doubled separator before
openai, refuting the no-doubled-separator conjunct of the claim. -/
theorem api_url_trailing_slash_counterexample :
    getApiUrl "https://h/" "d" "v"
      = "https://h//openai/deployments/d/images/generations?api-version=v"
    ∧ jsIncludes (getApiUrl "https://h/" "d" "v") "//openai" = true := by
  decide

/-- C1 amended: the resolved URL is exactly the plain concatenation of
endpoint, the fixed path with the deployment spliced in, and the api
version; a trailing slash on the endpoint is not collapsed, so the URL
then contains a doubled separator before openai, though the path
segment still occurs exactly once in the concrete trailing-slash case. -/
theorem api_url_construction_amended :
    (∀ endpoint deployment apiVersion : String,
      getApiUrl endpoint deployment apiVersion
        = endpoint ++ "/openai/deployments/" ++ deployment
          ++ "/images/generations?api-version=" ++ apiVersion)
    ∧ (∀ e0 deployment apiVersion : String,
        jsIncludes (getApiUrl (e0 ++ "/") deployment apiVersion) "//openai" = true)
    ∧ countSub ("/openai/deployments/d/images/generations?api-version=v").data
        (getApiUrl "https://h/" "d" "v").data = 1 := by
  refine ⟨fun _ _ _ => rfl, ?_, by decide⟩
  intro e0 d v
  unfold jsIncludes getApiUrl
  simp only [String.data_append, List.append_assoc]
  apply isSub_append_left
  rw [← List.append_assoc]
  have hkey : ("/" : String).data ++ ("/openai/deployments/" : String).data
      = ("//openai" : String).data ++ ("/deployments/" : String).data := by decide
  rw [hkey, List.append_assoc]
  exact isSub_of_isPrefixOf _ _ (isPrefixOf_self_append _ _)

/-- The aggregated message of `configValidate` when both Azure fields are
missing. -/
def azureBothMissingMsg : String :=
  "Configuration validation failed:\n  - AZURE_OPENAI_ENDPOINT is required when using Azure provider\n  - AZURE_OPENAI_API_KEY is required when using Azure provider"

/-- C2 counterexample: constructing the Azure provider with endpoint and
apiKey both absent fails with the fixed configuration-incomplete
message, which names neither missing field (no endpoint, no key, even
case-insensitively), refuting the field-naming conjunct of the claim. -/
theorem azure_config_counterexample :
    mkAzureProvider none none (some "flux-1-1-pro") (some "2025-04-01-preview") none "/cwd"
      = .error ProviderError.azureConfigIncomplete
    ∧ ProviderError.message ProviderError.azureConfigIncomplete
      = "Azure OpenAI configuration is incomplete"
    ∧ jsIncludes (jsToLower (ProviderError.message ProviderError.azureConfigIncomplete))
        "endpoint" = false
    ∧ jsIncludes (jsToLower (ProviderError.message ProviderError.azureConfigIncomplete))
        "key" = false := by
  decide

/-- C2 amended: the Azure constructor fails immediately whenever any of
the four required fields is falsy, with a single error whose fixed
message is Azure OpenAI configuration is incomplete and names no field;
the aggregation naming every missing field lives in `configValidate`,
where with endpoint and apiKey both absent the single error message
names both missing fields. -/
theorem azure_config_amended :
    (∀ (endpoint apiKey deployment apiVersion outputDir : Option String) (cwd : String),
      (truthy endpoint = false ∨ truthy apiKey = false
        ∨ truthy deployment = false ∨ truthy apiVersion = false) →
      mkAzureProvider endpoint apiKey deployment apiVersion outputDir cwd
        = .error ProviderError.azureConfigIncomplete)
    ∧ ProviderError.message ProviderError.azureConfigIncomplete
      = "Azure OpenAI configuration is incomplete"
    ∧ (∀ cfg : Config, cfg.provider = "azure" →
        truthy cfg.endpoint = false → truthy cfg.apiKey = false →
        configValidate cfg = .error azureBothMissingMsg)
    ∧ jsIncludes azureBothMissingMsg "AZURE_OPENAI_ENDPOINT" = true
    ∧ jsIncludes azureBothMissingMsg "AZURE_OPENAI_API_KEY" = true := by
  refine ⟨?_, rfl, ?_, by decide, by decide⟩
  · intro endpoint apiKey deployment apiVersion outputDir cwd h
    unfold mkAzureProvider
    rw [if_pos h]
  · intro cfg hp he hk
    simp [configValidate, hp, he, hk, azureBothMissingMsg, jsJoin]

/-- A Config with the azure discriminator and both required Azure fields
absent. -/
def cfgAzureMissing : Config :=
  { provider := "azure"
    geminiApiKey := none
    endpoint := none
    deployment := "flux-1-1-pro"
    apiVersion := "2025-04-01-preview"
    apiKey := none
    outputDir := "/out" }

/-- Witness for the amended C2 at concrete missing configurations. -/
theorem azure_config_amended_witness :
    mkAzureProvider (some "") none (some "d") (some "v") none "/cwd"
      = .error ProviderError.azureConfigIncomplete
    ∧ configValidate cfgAzureMissing = .error azureBothMissingMsg :=
  ⟨azure_config_amended.1 (some "") none (some "d") (some "v") none "/cwd" (by decide),
   azure_config_amended.2.2.1 cfgAzureMissing (by decide) (by decide) (by decide)⟩

/-- C6: the factory run on a google discriminator (the default for an
absent one) yields the provider named google-nano-banana when the Google
key is present, on azure yields azure-openai when the Azure fields are
present, and on anything else fails with the unknown-provider error
whose message embeds the offending value and the supported set. -/
theorem provider_factory_selection :
    (∀ (env : EnvConfig) (cwd : String), env.imageProvider = none →
        (mkConfig env cwd).provider = "google")
    ∧ (∀ (cfg : Config) (cwd : String), cfg.provider = "google" →
        truthy cfg.geminiApiKey = true →
        (createImageProvider cfg cwd).map Provider.getName = .ok "google-nano-banana")
    ∧ (∀ (cfg : Config) (cwd : String), cfg.provider = "azure" →
        truthy cfg.endpoint = true → truthy cfg.apiKey = true →
        cfg.deployment ≠ "" → cfg.apiVersion ≠ "" →
        (createImageProvider cfg cwd).map Provider.getName = .ok "azure-openai")
    ∧ (∀ (cfg : Config) (cwd : String), cfg.provider ≠ "" →
        cfg.provider ≠ "google" → cfg.provider ≠ "azure" →
        createImageProvider cfg cwd = .error (.unknownProvider cfg.provider)
        ∧ ProviderError.message (.unknownProvider cfg.provider)
          = "Unknown provider: " ++ cfg.provider ++ ". Supported: google, azure")
    ∧ jsIncludes (ProviderError.message (.unknownProvider "aws")) "aws" = true
    ∧ jsIncludes (ProviderError.message (.unknownProvider "aws")) "google, azure" = true := by
  refine ⟨?_, ?_, ?_, ?_, by decide, by decide⟩
  · intro env cwd h
    simp [mkConfig, jsOr, h]
  · intro cfg cwd hp hk
    simp [createImageProvider, mkGoogleProvider, hp, hk, Provider.getName, Except.map]
  · intro cfg cwd hp he hk hd hv
    have hd2 : truthy (some cfg.deployment) = true := by simp [truthy, hd]
    have hv2 : truthy (some cfg.apiVersion) = true := by simp [truthy, hv]
    simp [createImageProvider, mkAzureProvider, hp, he, hk, hd2, hv2, Provider.getName, Except.map]
  · intro cfg cwd h0 hg ha
    exact ⟨by simp [createImageProvider, h0, hg, ha], rfl⟩

def cfgGoogleOk : Config :=
  { provider := "google"
    geminiApiKey := some "gk"
    endpoint := none
    deployment := "flux-1-1-pro"
    apiVersion := "2025-04-01-preview"
    apiKey := none
    outputDir := "/out" }

def cfgAzureOk : Config :=
  { provider := "azure"
    geminiApiKey := none
    endpoint := some "https://e"
    deployment := "flux-1-1-pro"
    apiVersion := "2025-04-01-preview"
    apiKey := some "ak"
    outputDir := "/out" }

def cfgUnknownProv : Config :=
  { provider := "aws"
    geminiApiKey := none
    endpoint := none
    deployment := "flux-1-1-pro"
    apiVersion := "2025-04-01-preview"
    apiKey := none
    outputDir := "/out" }

def envNoProvider : EnvConfig :=
  { imageProvider := none
    geminiApiKey := some "gk"
    azureEndpoint := none
    azureDeployment := none
    azureApiVersion := none
    azureApiKey := none
    outputDir := none }

/-- Witness for C6 at concrete configurations. -/
theorem provider_factory_selection_witness :
    (mkConfig envNoProvider "/cwd").provider = "google"
    ∧ (createImageProvider cfgGoogleOk "/cwd").map Provider.getName = .ok "google-nano-banana"
    ∧ (createImageProvider cfgAzureOk "/cwd").map Provider.getName = .ok "azure-openai"
    ∧ createImageProvider cfgUnknownProv "/cwd" = .error (.unknownProvider "aws") :=
  ⟨provider_factory_selection.1 envNoProvider "/cwd" rfl,
   provider_factory_selection.2.1 cfgGoogleOk "/cwd" rfl (by decide),
   provider_factory_selection.2.2.1 cfgAzureOk "/cwd" rfl (by decide) (by decide)
     (by decide) (by decide),
   (provider_factory_selection.2.2.2.1 cfgUnknownProv "/cwd" (by decide) (by decide)
     (by decide)).1⟩

/-- A concrete Google provider state for stub-based theorems. -/
def gstStub : GoogleProviderState :=
  { apiKey := "test-key"
    outputDir := "/out" }

/-- A concrete Azure provider state for stub-based theorems. -/
def astStub : AzureProviderState :=
  { endpoint := "https://e"
    apiKey := "k"
    deployment := "flux-1-1-pro"
    apiVersion := "v"
    outputDir := "/out"
    modelType := "flux" }

/-- C4 counterexample: the second Google generateImage implementation
performs no prompt validation, so for the 5-character prompt the stubbed
remote collaborator IS invoked (the invocation flag is true and the stub
failure surfaces wrapped), refuting the claim for that variant. -/
theorem prompt_check_counterexample :
    ("short" : String).length < 10
    ∧ (googleGenerateImageSecond gstStub "short" GenOptions.none'
        (.error "stub invoked") "2025-06-01T00:00:00.000Z" "r").2 = true
    ∧ (googleGenerateImageSecond gstStub "short" GenOptions.none'
        (.error "stub invoked") "2025-06-01T00:00:00.000Z" "r").1
      = .error (.googleWrapped "Google Nano Banana image generation failed: stub invoked") := by
  decide

/-- C4 amended: the Azure generateImage, the first Google generateImage
and the ImageGenerator pipeline all fail on an empty or short prompt
(and generateUIImage on a short description) with the prompt-required or
prompt-too-short error before the remote collaborator is consulted; the
second Google generateImage implementation consults the remote
collaborator unconditionally, with no prompt validation. -/
theorem prompt_checks_amended :
    (∀ (st : AzureProviderState) (prompt : String) (options : GenOptions)
        (remote : Except String (Option String)) (isoNow randomStr : String),
      prompt.length < 10 →
      (azureGenerateImage st prompt options remote isoNow randomStr).2 = false
      ∧ ((azureGenerateImage st prompt options remote isoNow randomStr).1
            = .error GenError.promptRequired
         ∨ (azureGenerateImage st prompt options remote isoNow randomStr).1
            = .error GenError.promptTooShort))
    ∧ (∀ (st : GoogleProviderState) (prompt : String) (options : GenOptions)
        (remote : Except String (List GeminiImage)) (isoNow randomStr : String),
      prompt.length < 10 →
      (googleGenerateImage st prompt options remote isoNow randomStr).2 = false
      ∧ ((googleGenerateImage st prompt options remote isoNow randomStr).1
            = .error GenError.promptRequired
         ∨ (googleGenerateImage st prompt options remote isoNow randomStr).1
            = .error GenError.promptTooShort))
    ∧ (∀ (cfg : Config) (prompt : String) (options : GenOptions)
        (remote : Except String (Option String)) (isoNow : String),
      prompt.length < 10 →
      (imageGeneratorGenerate cfg prompt options remote isoNow).2 = false
      ∧ ((imageGeneratorGenerate cfg prompt options remote isoNow).1
            = .error GenError.promptRequired
         ∨ (imageGeneratorGenerate cfg prompt options remote isoNow).1
            = .error GenError.promptTooShort))
    ∧ (∀ (cfg : Config) (description : String) (style uiType sizeOpt : Option String)
        (remote : Except String (Option String)) (isoNow : String),
      description.length < 20 →
      (generateUIImage cfg description style uiType sizeOpt remote isoNow).2 = false
      ∧ ((generateUIImage cfg description style uiType sizeOpt remote isoNow).1
            = .error GenError.descriptionRequired
         ∨ (generateUIImage cfg description style uiType sizeOpt remote isoNow).1
            = .error GenError.descriptionTooShort))
    ∧ (∀ (st : GoogleProviderState) (prompt : String) (options : GenOptions)
        (remote : Except String (List GeminiCandidate)) (isoNow randomStr : String),
      (googleGenerateImageSecond st prompt options remote isoNow randomStr).2 = true) := by
  refine ⟨?_, ?_, ?_, ?_, ?_⟩
  · intro st prompt options remote isoNow randomStr hlen
    by_cases hp : prompt = ""
    · exact ⟨by simp [azureGenerateImage, hp], Or.inl (by simp [azureGenerateImage, hp])⟩
    · exact ⟨by simp [azureGenerateImage, hp, hlen],
        Or.inr (by simp [azureGenerateImage, hp, hlen])⟩
  · intro st prompt options remote isoNow randomStr hlen
    by_cases hp : prompt = ""
    · exact ⟨by simp [googleGenerateImage, hp], Or.inl (by simp [googleGenerateImage, hp])⟩
    · exact ⟨by simp [googleGenerateImage, hp, hlen],
        Or.inr (by simp [googleGenerateImage, hp, hlen])⟩
  · intro cfg prompt options remote isoNow hlen
    by_cases hp : prompt = ""
    · exact ⟨by simp [imageGeneratorGenerate, hp],
        Or.inl (by simp [imageGeneratorGenerate, hp])⟩
    · exact ⟨by simp [imageGeneratorGenerate, hp, hlen],
        Or.inr (by simp [imageGeneratorGenerate, hp, hlen])⟩
  · intro cfg description style uiType sizeOpt remote isoNow hlen
    by_cases hp : description = ""
    · exact ⟨by simp [generateUIImage, hp], Or.inl (by simp [generateUIImage, hp])⟩
    · exact ⟨by simp [generateUIImage, hp, hlen],
        Or.inr (by simp [generateUIImage, hp, hlen])⟩
  · intro st prompt options remote isoNow randomStr
    cases remote with
    | error msg => rfl
    | ok candidates =>
      unfold googleGenerateImageSecond
      cases h : candidates.findSome? (fun c => c.parts.findSome? (fun p => p.inlineData)) <;>
        simp [h]

/-- Witness for the amended C4 at concrete short prompts and stubs. -/
theorem prompt_checks_amended_witness :
    (azureGenerateImage astStub "short" GenOptions.none' (.error "stub") "t" "r").2 = false
    ∧ (googleGenerateImage gstStub "short" GenOptions.none' (.error "stub") "t" "r").2 = false
    ∧ (imageGeneratorGenerate cfgGoogleOk "short" GenOptions.none' (.error "stub") "t").2 = false
    ∧ (generateUIImage cfgGoogleOk "tiny description" none none none (.error "stub") "t").2
        = false :=
  ⟨(prompt_checks_amended.1 astStub "short" GenOptions.none' (.error "stub") "t" "r"
      (by decide)).1,
   (prompt_checks_amended.2.1 gstStub "short" GenOptions.none' (.error "stub") "t" "r"
      (by decide)).1,
   (prompt_checks_amended.2.2.1 cfgGoogleOk "short" GenOptions.none' (.error "stub") "t"
      (by decide)).1,
   (prompt_checks_amended.2.2.2.1 cfgGoogleOk "tiny description" none none none
      (.error "stub") "t" (by decide)).1⟩


theorem mk_data (s : String) : (⟨s.data⟩ : String) = s := rfl

theorem strAppend_assoc (a b c : String) : a ++ b ++ c = a ++ (b ++ c) :=
  String.ext (by simp [String.data_append, List.append_assoc])

theorem splitOnChar_no_sep (sep : Char) (l : List Char) (h : ∀ c ∈ l, c ≠ sep) :
    splitOnChar sep l = [l] := by
  induction l with
  | nil => rfl
  | cons a rest ih =>
    have ha : a ≠ sep := h a (by simp)
    have hr : splitOnChar sep rest = [rest] := ih (fun c hc => h c (by simp [hc]))
    simp [splitOnChar, ha, hr]

theorem splitSeg_no_slash (f : String) (h : ∀ c ∈ f.data, c ≠ '/') :
    splitSeg f = [f] := by
  simp [splitSeg, splitOnChar_no_sep '/' f.data h]

theorem foldl_no_slash (f : List Char) (acc : List Char) (hf : ∀ c ∈ f, c ≠ '/') :
    f.foldl (fun acc c => if c = '/' then [] else acc ++ [c]) acc = acc ++ f := by
  induction f generalizing acc with
  | nil => simp
  | cons c rest ih =>
    simp only [List.foldl_cons]
    rw [if_neg (hf c (by simp)), ih _ (fun d hd => hf d (by simp [hd]))]
    simp

theorem afterLastSlash_append (l f : List Char) (hf : ∀ c ∈ f, c ≠ '/') :
    afterLastSlash (l ++ '/' :: f) = f := by
  unfold afterLastSlash
  rw [List.foldl_append, List.foldl_cons, if_pos rfl, foldl_no_slash f [] hf]
  simp

theorem afterLastSlash_no_slash (f : List Char) (hf : ∀ c ∈ f, c ≠ '/') :
    afterLastSlash f = f := by
  unfold afterLastSlash
  simpa using foldl_no_slash f [] hf

theorem jsJoin_append_single (sep f : String) (xs : List String) (h : xs ≠ []) :
    jsJoin sep (xs ++ [f]) = jsJoin sep xs ++ sep ++ f := by
  induction xs with
  | nil => exact absurd rfl h
  | cons x xs ih =>
    cases xs with
    | nil => simp [jsJoin]
    | cons y ys =>
      have hrec := ih (by simp)
      simp only [List.cons_append, List.append_eq, jsJoin] at hrec ⊢
      rw [hrec, strAppend_assoc (x ++ sep), strAppend_assoc (x ++ sep)]

theorem basename_joinPath (d f : String) (hf : ∀ c ∈ f.data, c ≠ '/')
    (h0 : f ≠ "") (h1 : f ≠ ".") (h2 : f ≠ "..") :
    basename (joinPath d f) = f := by
  have hstep : ∀ (i : Bool) (acc : List String), pathStep i acc f = f :: acc := by
    intro i acc
    unfold pathStep
    rw [if_neg (not_or.mpr ⟨h0, h1⟩), if_neg h2]
  simp only [joinPath, splitSeg_no_slash f hf, List.foldl_append, List.foldl_cons,
    List.foldl_nil, hstep, List.reverse_cons]
  set stackD := (splitSeg d).foldl (pathStep (d.data.head? = some '/')) [] with hsd
  cases hrev : stackD.reverse with
  | nil =>
    simp only [List.nil_append, jsJoin]
    by_cases hAbs : d.data.head? = some '/'
    · rw [if_pos hAbs]
      have hdata : ("/" ++ f).data = [] ++ '/' :: f.data := by
        simp [String.data_append]
      unfold basename
      rw [hdata, afterLastSlash_append [] f.data hf]
    · rw [if_neg hAbs, if_neg h0]
      unfold basename
      rw [afterLastSlash_no_slash f.data hf]
  | cons x xs =>
    rw [jsJoin_append_single "/" f (x :: xs) (by simp)]
    set J := jsJoin "/" (x :: xs) with hJ
    by_cases hAbs : d.data.head? = some '/'
    · rw [if_pos hAbs]
      have hdata : ("/" ++ (J ++ "/" ++ f)).data = ('/' :: J.data) ++ '/' :: f.data := by
        simp [String.data_append]
      unfold basename
      rw [hdata, afterLastSlash_append ('/' :: J.data) f.data hf]
    · rw [if_neg hAbs]
      have hne : J ++ "/" ++ f ≠ "" := by
        intro hb
        have : (J ++ "/" ++ f).data = [] := by rw [hb]
        simp [String.data_append] at this
      rw [if_neg hne]
      have hdata : (J ++ "/" ++ f).data = J.data ++ '/' :: f.data := by
        simp [String.data_append]
      unfold basename
      rw [hdata, afterLastSlash_append J.data f.data hf]



theorem basename_generated_azure (dir mt ts rnd : String)
    (hmt : ∀ c ∈ mt.data, c ≠ '/') (hts : ∀ c ∈ ts.data, c ≠ '/')
    (hrnd : ∀ c ∈ rnd.data, c ≠ '/') :
    basename (joinPath dir ("azure-" ++ mt ++ "-" ++ ts ++ "-" ++ rnd ++ ".png"))
      = "azure-" ++ mt ++ "-" ++ ts ++ "-" ++ rnd ++ ".png" := by
  set f := "azure-" ++ mt ++ "-" ++ ts ++ "-" ++ rnd ++ ".png" with hfdef
  have hdata : f.data = ("azure-" : String).data ++ mt.data ++ ("-" : String).data
      ++ ts.data ++ ("-" : String).data ++ rnd.data ++ (".png" : String).data := by
    simp [hfdef, String.data_append]
  have hf : ∀ c ∈ f.data, c ≠ '/' := by
    intro c hc
    rw [hdata] at hc
    simp only [List.mem_append] at hc
    rcases hc with ((((((h | h) | h) | h) | h) | h) | h)
    · exact (by decide : ∀ c ∈ ("azure-" : String).data, c ≠ '/') c h
    · exact hmt c h
    · exact (by decide : ∀ c ∈ ("-" : String).data, c ≠ '/') c h
    · exact hts c h
    · exact (by decide : ∀ c ∈ ("-" : String).data, c ≠ '/') c h
    · exact hrnd c h
    · exact (by decide : ∀ c ∈ (".png" : String).data, c ≠ '/') c h
  have hlen : 6 ≤ f.data.length := by
    rw [hdata]
    simp only [List.length_append, List.length_cons, List.length_nil]
    omega
  have h0 : f ≠ "" := by
    intro hb
    rw [hb] at hlen
    exact absurd hlen (by decide)
  have h1 : f ≠ "." := by
    intro hb
    rw [hb] at hlen
    exact absurd hlen (by decide)
  have h2 : f ≠ ".." := by
    intro hb
    rw [hb] at hlen
    exact absurd hlen (by decide)
  exact basename_joinPath dir f hf h0 h1 h2

theorem basename_generated_google (dir ts rnd : String)
    (hts : ∀ c ∈ ts.data, c ≠ '/') (hrnd : ∀ c ∈ rnd.data, c ≠ '/') :
    basename (joinPath dir ("google-nanaban-" ++ ts ++ "-" ++ rnd ++ ".png"))
      = "google-nanaban-" ++ ts ++ "-" ++ rnd ++ ".png" := by
  set f := "google-nanaban-" ++ ts ++ "-" ++ rnd ++ ".png" with hfdef
  have hdata : f.data = ("google-nanaban-" : String).data ++ ts.data
      ++ ("-" : String).data ++ rnd.data ++ (".png" : String).data := by
    simp [hfdef, String.data_append]
  have hf : ∀ c ∈ f.data, c ≠ '/' := by
    intro c hc
    rw [hdata] at hc
    simp only [List.mem_append] at hc
    rcases hc with ((((h | h) | h) | h) | h)
    · exact (by decide : ∀ c ∈ ("google-nanaban-" : String).data, c ≠ '/') c h
    · exact hts c h
    · exact (by decide : ∀ c ∈ ("-" : String).data, c ≠ '/') c h
    · exact hrnd c h
    · exact (by decide : ∀ c ∈ (".png" : String).data, c ≠ '/') c h
  have hlen : 15 ≤ f.data.length := by
    rw [hdata]
    simp only [List.length_append, List.length_cons, List.length_nil]
    omega
  have h0 : f ≠ "" := by
    intro hb
    rw [hb] at hlen
    exact absurd hlen (by decide)
  have h1 : f ≠ "." := by
    intro hb
    rw [hb] at hlen
    exact absurd hlen (by decide)
  have h2 : f ≠ ".." := by
    intro hb
    rw [hb] at hlen
    exact absurd hlen (by decide)
  exact basename_joinPath dir f hf h0 h1 h2

/-- C9: the file goes to workingDirectory/generated-images when a working
directory is supplied and to the provider default directory otherwise;
custom filename foo with format png yields basename exactly foo.png; with
no custom filename the basename is the generated name embedding the
provider/model tag, the date-only timestamp and the random suffix, ending
in .png. -/
theorem output_path_resolution :
    (∀ (st : AzureProviderState) (format : String) (cf wd : Option String)
        (isoNow randomStr : String),
      (truthy wd = true →
        azureSavePath st format cf wd isoNow randomStr
          = joinPath (joinPath (jsOr wd "") "generated-images")
              (if truthy cf = true then jsOr cf "" ++ "." ++ format
               else "azure-" ++ st.modelType ++ "-" ++ isoDateOnly isoNow ++ "-"
                 ++ randomStr ++ "." ++ format))
      ∧ (truthy wd = false →
        azureSavePath st format cf wd isoNow randomStr
          = joinPath st.outputDir
              (if truthy cf = true then jsOr cf "" ++ "." ++ format
               else "azure-" ++ st.modelType ++ "-" ++ isoDateOnly isoNow ++ "-"
                 ++ randomStr ++ "." ++ format)))
    ∧ (∀ (st : GoogleProviderState) (format : String) (cf wd : Option String)
        (isoNow randomStr : String),
      (truthy wd = true →
        googleSavePath st format cf wd isoNow randomStr
          = joinPath (joinPath (jsOr wd "") "generated-images")
              (if truthy cf = true then jsOr cf "" ++ "." ++ format
               else "google-nanaban-" ++ isoDateOnly isoNow ++ "-" ++ randomStr
                 ++ "." ++ format))
      ∧ (truthy wd = false →
        googleSavePath st format cf wd isoNow randomStr
          = joinPath st.outputDir
              (if truthy cf = true then jsOr cf "" ++ "." ++ format
               else "google-nanaban-" ++ isoDateOnly isoNow ++ "-" ++ randomStr
                 ++ "." ++ format)))
    ∧ (∀ (st : AzureProviderState) (wd : Option String) (isoNow randomStr : String),
        basename (azureSavePath st "png" (some "foo") wd isoNow randomStr) = "foo.png")
    ∧ (∀ (st : GoogleProviderState) (wd : Option String) (isoNow randomStr : String),
        basename (googleSavePath st "png" (some "foo") wd isoNow randomStr) = "foo.png")
    ∧ (∀ (st : AzureProviderState) (wd : Option String) (isoNow randomStr : String),
        (∀ c ∈ st.modelType.data, c ≠ '/') →
        (∀ c ∈ (isoDateOnly isoNow).data, c ≠ '/') →
        (∀ c ∈ randomStr.data, c ≠ '/') →
        basename (azureSavePath st "png" none wd isoNow randomStr)
          = "azure-" ++ st.modelType ++ "-" ++ isoDateOnly isoNow ++ "-" ++ randomStr ++ ".png"
        ∧ ∃ pre, basename (azureSavePath st "png" none wd isoNow randomStr)
            = pre ++ ".png")
    ∧ (∀ (st : GoogleProviderState) (wd : Option String) (isoNow randomStr : String),
        (∀ c ∈ (isoDateOnly isoNow).data, c ≠ '/') →
        (∀ c ∈ randomStr.data, c ≠ '/') →
        basename (googleSavePath st "png" none wd isoNow randomStr)
          = "google-nanaban-" ++ isoDateOnly isoNow ++ "-" ++ randomStr ++ ".png")
    ∧ isoDateOnly "2025-06-01T12:34:56.789Z" = "2025-06-01" := by
  refine ⟨?_, ?_, ?_, ?_, ?_, ?_, by decide⟩
  · intro st format cf wd isoNow randomStr
    constructor <;> intro h <;> simp [azureSavePath, h]
  · intro st format cf wd isoNow randomStr
    constructor <;> intro h <;> simp [googleSavePath, h]
  · intro st wd isoNow randomStr
    have key : azureSavePath st "png" (some "foo") wd isoNow randomStr
        = joinPath (if truthy wd = true then joinPath (jsOr wd "") "generated-images"
            else st.outputDir) "foo.png" := rfl
    rw [key]
    exact basename_joinPath _ "foo.png" (by decide) (by decide) (by decide) (by decide)
  · intro st wd isoNow randomStr
    have key : googleSavePath st "png" (some "foo") wd isoNow randomStr
        = joinPath (if truthy wd = true then joinPath (jsOr wd "") "generated-images"
            else st.outputDir) "foo.png" := rfl
    rw [key]
    exact basename_joinPath _ "foo.png" (by decide) (by decide) (by decide) (by decide)
  · intro st wd isoNow randomStr hmt hts hrnd
    have key : azureSavePath st "png" none wd isoNow randomStr
        = joinPath (if truthy wd = true then joinPath (jsOr wd "") "generated-images"
            else st.outputDir)
            ("azure-" ++ st.modelType ++ "-" ++ isoDateOnly isoNow ++ "-" ++ randomStr
              ++ "." ++ "png") := rfl
    have hpng : "azure-" ++ st.modelType ++ "-" ++ isoDateOnly isoNow ++ "-" ++ randomStr
        ++ "." ++ "png"
        = "azure-" ++ st.modelType ++ "-" ++ isoDateOnly isoNow ++ "-" ++ randomStr
          ++ ".png" := String.ext (by simp [String.data_append, List.append_assoc])
    rw [key, hpng]
    refine ⟨basename_generated_azure _ _ _ _ hmt hts hrnd, ?_⟩
    exact ⟨"azure-" ++ st.modelType ++ "-" ++ isoDateOnly isoNow ++ "-" ++ randomStr,
      basename_generated_azure _ _ _ _ hmt hts hrnd⟩
  · intro st wd isoNow randomStr hts hrnd
    have key : googleSavePath st "png" none wd isoNow randomStr
        = joinPath (if truthy wd = true then joinPath (jsOr wd "") "generated-images"
            else st.outputDir)
            ("google-nanaban-" ++ isoDateOnly isoNow ++ "-" ++ randomStr
              ++ "." ++ "png") := rfl
    have hpng : "google-nanaban-" ++ isoDateOnly isoNow ++ "-" ++ randomStr ++ "." ++ "png"
        = "google-nanaban-" ++ isoDateOnly isoNow ++ "-" ++ randomStr ++ ".png" :=
      String.ext (by simp [String.data_append, List.append_assoc])
    rw [key, hpng]
    exact basename_generated_google _ _ _ hts hrnd



/-- Witness for C9 at concrete states, clock readings and suffixes. -/
theorem output_path_resolution_witness :
    basename (azureSavePath astStub "png" (some "foo") (some "/work") "t" "r") = "foo.png"
    ∧ googleSavePath gstStub "png" (some "foo") none "t" "r"
        = joinPath gstStub.outputDir
            (if truthy (some "foo") = true then jsOr (some "foo") "" ++ "." ++ "png"
             else "google-nanaban-" ++ isoDateOnly "t" ++ "-" ++ "r" ++ "." ++ "png")
    ∧ basename (azureSavePath astStub "png" none (some "/work")
        "2025-06-01T12:34:56.789Z" "x7k2pq") = "azure-flux-2025-06-01-x7k2pq.png"
    ∧ basename (googleSavePath gstStub "png" none none
        "2025-06-01T12:34:56.789Z" "x7k2pq") = "google-nanaban-2025-06-01-x7k2pq.png" := by
  refine ⟨output_path_resolution.2.2.1 astStub (some "/work") "t" "r",
    (output_path_resolution.2.1 gstStub "png" (some "foo") none "t" "r").2 (by decide),
    ?_, ?_⟩
  · exact (output_path_resolution.2.2.2.2.1 astStub (some "/work")
      "2025-06-01T12:34:56.789Z" "x7k2pq" (by decide) (by decide) (by decide)).1
  · exact output_path_resolution.2.2.2.2.2.1 gstStub none
      "2025-06-01T12:34:56.789Z" "x7k2pq" (by decide) (by decide)

/-- C10: the saved path is the plain path-join of the resolved output
directory with customFilename dot format, with no sanitization of the
custom filename; consequently the custom filename dotdot-slash-escape
resolves outside the configured output directory /out, and its basename
is not the custom filename with the extension appended. -/
theorem save_no_sanitization :
    (∀ (st : AzureProviderState) (format cf : String) (wd : Option String)
        (isoNow randomStr : String), cf ≠ "" →
      azureSavePath st format (some cf) wd isoNow randomStr
        = joinPath (if truthy wd = true then joinPath (jsOr wd "") "generated-images"
            else st.outputDir) (cf ++ "." ++ format))
    ∧ (∀ (st : GoogleProviderState) (format cf : String) (wd : Option String)
        (isoNow randomStr : String), cf ≠ "" →
      googleSavePath st format (some cf) wd isoNow randomStr
        = joinPath (if truthy wd = true then joinPath (jsOr wd "") "generated-images"
            else st.outputDir) (cf ++ "." ++ format))
    ∧ azureSavePath astStub "png" (some "../escape") none "2025-06-01T00:00:00.000Z" "r"
        = "/escape.png"
    ∧ (("/out/" : String).data.isPrefixOf ("/escape.png" : String).data) = false
    ∧ basename "/escape.png" ≠ "../escape.png" := by
  refine ⟨?_, ?_, by decide, by decide, by decide⟩
  · intro st format cf wd isoNow randomStr hcf
    have ht : truthy (some cf) = true := by simp [truthy, hcf]
    have hor : jsOr (some cf) "" = cf := by simp [jsOr, hcf]
    simp [azureSavePath, ht, hor]
  · intro st format cf wd isoNow randomStr hcf
    have ht : truthy (some cf) = true := by simp [truthy, hcf]
    have hor : jsOr (some cf) "" = cf := by simp [jsOr, hcf]
    simp [googleSavePath, ht, hor]

/-- Witness for C10 at a concrete custom filename. -/
theorem save_no_sanitization_witness :
    azureSavePath astStub "png" (some "foo") (some "/work") "t" "r"
      = joinPath (if truthy (some "/work") = true
          then joinPath (jsOr (some "/work") "") "generated-images"
          else astStub.outputDir) ("foo" ++ "." ++ "png") :=
  save_no_sanitization.1 astStub "png" "foo" (some "/work") "t" "r" (by decide)

end ImagesMcp
